import Mathlib

/-!
Verification of the pump-control core of the tipsy-elite cocktail machine.

The definitions below are a shallow embedding of the Python source:
* namespace `Tb6612`    embeds `src/tb6612_controller.py` and `src/hardware_config.py`
  (threaded `PumpManager` driving TB6612FNG dual H-bridge controllers);
* namespace `Hw`        embeds `cocktail_machine/hardware/pumps.py`
  (asyncio `Pump` / `PumpManager` variant);
* namespace `Cm`        embeds the pour-ordering logic of `src/cocktail_manager.py`.

GPIO side effects are captured as an explicit event trace (`HWEvent`), so
ordering requirements on pin writes and duty-cycle writes can be stated.
Machine floats are modelled as rationals; Python `int()` truncation toward
zero is `pyInt`.  `time.time()` is threaded through as an explicit `now`
parameter, and "an exception interrupts the wait" (cancellation, emergency)
is the explicit `interrupt` argument of `pour_volume`.
-/

unseal Rat.ofScientific Rat.mul Rat.inv Rat.add Rat.sub

/-- Digital level on a GPIO pin. -/
inductive Level
  | low
  | high
deriving DecidableEq

/-- Motor direction as used by the controller code (string values
`'forward' | 'reverse' | 'stopped'` in the source). -/
inductive Direction
  | forward
  | reverse
  | stopped
deriving DecidableEq

/-- Motor channel on one TB6612FNG chip (`'A' | 'B'` in the source). -/
inductive Chan
  | A
  | B
deriving DecidableEq

/-- One observable hardware command, in issue order: `GPIO.output`,
`pwm.ChangeDutyCycle`, `pwm.start`, `pwm.stop`. -/
inductive HWEvent
  | out (pin : Nat) (level : Level)
  | setDuty (pin : Nat) (duty : Int)
  | pwmStart (pin : Nat) (duty : Int)
  | pwmStop (pin : Nat)
deriving DecidableEq

namespace Tb6612

/-- Pinout of one TB6612FNG controller (`hardware_config.TB6612FNGConfig`). -/
structure TB6612FNGConfig where
  ain1 : Nat
  ain2 : Nat
  bin1 : Nat
  bin2 : Nat
  pwma : Nat
  pwmb : Nat
  stby : Nat
deriving DecidableEq

/-- `PWM_CONFIG['min_duty_cycle']` from `hardware_config.py`. -/
def PWM_CONFIG_min_duty_cycle : Int := 30

/-- `PWM_CONFIG['max_duty_cycle']` from `hardware_config.py`. -/
def PWM_CONFIG_max_duty_cycle : Int := 100

/-- `TIMING_CONFIG['max_pour_time']` from `hardware_config.py`. -/
def TIMING_CONFIG_max_pour_time : ℚ := 60

/-- Configuration of one pump (`hardware_config.PumpConfig`). -/
structure PumpConfig where
  pump_id : Nat
  tb6612_controller : Nat
  motor_channel : Chan
  ingredient : String
  flow_rate_ml_per_second : ℚ
  calibration_factor : ℚ
  max_volume_ml : Nat
deriving DecidableEq

/-- `PumpConfig.effective_flow_rate` property. -/
def PumpConfig.effective_flow_rate (p : PumpConfig) : ℚ :=
  p.flow_rate_ml_per_second * p.calibration_factor

/-- Runtime status of one motor channel (`tb6612_controller.PumpStatus`). -/
structure PumpStatus where
  is_running : Bool := false
  direction : Direction := .forward
  speed_percent : Int := 0
  volume_dispensed : ℚ := 0
  total_runtime : ℚ := 0
  last_started : Option ℚ := none
  error_state : Bool := false
deriving DecidableEq

/-- State of one `tb6612_controller.TB6612Controller`: pin levels are the
last written GPIO levels, `pwm_a`/`pwm_b` hold the current duty cycle of the
PWM object once it has been created (`none` before `initialize`). -/
structure TB6612Controller where
  config : TB6612FNGConfig
  controller_id : Nat
  pwm_a : Option Int
  pwm_b : Option Int
  is_init : Bool
  standby_active : Bool
  motor_a_status : PumpStatus
  motor_b_status : PumpStatus
  ain1_level : Level
  ain2_level : Level
  bin1_level : Level
  bin2_level : Level
  stby_level : Level
deriving DecidableEq

/-- `TB6612Controller.__init__`: no pin has been driven yet; the model takes
low as the (irrelevant) pre-`initialize` level, `initialize` overwrites it. -/
def TB6612Controller.new (cfg : TB6612FNGConfig) (cid : Nat) : TB6612Controller :=
  { config := cfg
    controller_id := cid
    pwm_a := none
    pwm_b := none
    is_init := false
    standby_active := true
    motor_a_status := {}
    motor_b_status := {}
    ain1_level := .low
    ain2_level := .low
    bin1_level := .low
    bin2_level := .low
    stby_level := .low }

/-- `TB6612Controller.enable`: drive STBY high, leave standby mode. -/
def enable (c : TB6612Controller) : TB6612Controller × List HWEvent :=
  ({ c with stby_level := .high, standby_active := false },
   [.out c.config.stby .high])

/-- `TB6612Controller.initialize`: configure all pins as outputs with the
direction pins and STBY initially low, create and start both PWMs at duty 0,
then `enable` the chip. -/
def initController (c : TB6612Controller) : TB6612Controller × List HWEvent :=
  if c.is_init then (c, [])
  else
    let ev1 : List HWEvent :=
      [.out c.config.ain1 .low, .out c.config.ain2 .low,
       .out c.config.bin1 .low, .out c.config.bin2 .low,
       .out c.config.stby .low]
    let c1 := { c with
      ain1_level := .low
      ain2_level := .low
      bin1_level := .low
      bin2_level := .low
      stby_level := .low
      pwm_a := some 0
      pwm_b := some 0 }
    let ev2 : List HWEvent := [.pwmStart c.config.pwma 0, .pwmStart c.config.pwmb 0]
    let (c2, ev3) := enable c1
    ({ c2 with is_init := true }, ev1 ++ ev2 ++ ev3)

/-- `TB6612Controller._stop_all_motors`: for each channel, clear the two
direction pins, then (if the PWM object exists) write duty 0, then update the
channel status.  The event list records the source's exact write order. -/
def stop_all_motors (c : TB6612Controller) : TB6612Controller × List HWEvent :=
  let evA : List HWEvent :=
    [.out c.config.ain1 .low, .out c.config.ain2 .low]
      ++ (if c.pwm_a.isSome then [.setDuty c.config.pwma 0] else [])
  let c1 := { c with
    ain1_level := .low
    ain2_level := .low
    pwm_a := c.pwm_a.map (fun _ => 0)
    motor_a_status := { c.motor_a_status with
      is_running := false
      direction := .stopped
      speed_percent := 0 } }
  let evB : List HWEvent :=
    [.out c.config.bin1 .low, .out c.config.bin2 .low]
      ++ (if c.pwm_b.isSome then [.setDuty c.config.pwmb 0] else [])
  let c2 := { c1 with
    bin1_level := .low
    bin2_level := .low
    pwm_b := c.pwm_b.map (fun _ => 0)
    motor_b_status := { c.motor_b_status with
      is_running := false
      direction := .stopped
      speed_percent := 0 } }
  (c2, evA ++ evB)

/-- `TB6612Controller._set_motor_a`: drive the direction pin pattern, then
the duty cycle, then update the status fields. -/
def set_motor_a (c : TB6612Controller) (speed_percent : Int) (direction : Direction) :
    Bool × TB6612Controller × List HWEvent :=
  let t : Level × Level × Int := match direction with
    | .forward => (.high, .low, speed_percent)
    | .reverse => (.low, .high, speed_percent)
    | .stopped => (.low, .low, 0)
  let lv1 := t.1
  let lv2 := t.2.1
  let sp := t.2.2
  let evPins : List HWEvent := [.out c.config.ain1 lv1, .out c.config.ain2 lv2]
  let evDuty : List HWEvent :=
    if c.pwm_a.isSome then [.setDuty c.config.pwma sp] else []
  let st := { c.motor_a_status with
    is_running := decide (0 < sp)
    direction := if 0 < sp then direction else .stopped
    speed_percent := sp }
  let c1 := { c with
    ain1_level := lv1
    ain2_level := lv2
    pwm_a := c.pwm_a.map (fun _ => sp)
    motor_a_status := st }
  (true, c1, evPins ++ evDuty)

/-- `TB6612Controller._set_motor_b`: mirror of `set_motor_a` on channel B. -/
def set_motor_b (c : TB6612Controller) (speed_percent : Int) (direction : Direction) :
    Bool × TB6612Controller × List HWEvent :=
  let t : Level × Level × Int := match direction with
    | .forward => (.high, .low, speed_percent)
    | .reverse => (.low, .high, speed_percent)
    | .stopped => (.low, .low, 0)
  let lv1 := t.1
  let lv2 := t.2.1
  let sp := t.2.2
  let evPins : List HWEvent := [.out c.config.bin1 lv1, .out c.config.bin2 lv2]
  let evDuty : List HWEvent :=
    if c.pwm_b.isSome then [.setDuty c.config.pwmb sp] else []
  let st := { c.motor_b_status with
    is_running := decide (0 < sp)
    direction := if 0 < sp then direction else .stopped
    speed_percent := sp }
  let c1 := { c with
    bin1_level := lv1
    bin2_level := lv2
    pwm_b := c.pwm_b.map (fun _ => sp)
    motor_b_status := st }
  (true, c1, evPins ++ evDuty)

/-- Python `int()` conversion of a float: truncation toward zero. -/
def pyInt (q : ℚ) : Int := if 0 ≤ q then q.floor else q.ceil

/-- The speed clamp of `set_motor_speed`: clamp to `[0, 100]`, then raise a
nonzero value below `min_duty_cycle` to `min_duty_cycle`. -/
def clampSpeed (speed_percent : Int) : Int :=
  let sp0 := max 0 (min 100 speed_percent)
  if sp0 < PWM_CONFIG_min_duty_cycle ∧ 0 < sp0 then PWM_CONFIG_min_duty_cycle
  else sp0

/-- The calibrated and clamped duty cycle computed by `start_pump`:
`int(speed_percent * calibration_factor)` clamped to
`[min_duty_cycle, max_duty_cycle]`. -/
def adjustedSpeed (speed_percent : Int) (calibration_factor : ℚ) : Int :=
  max PWM_CONFIG_min_duty_cycle
    (min PWM_CONFIG_max_duty_cycle (pyInt ((speed_percent : ℚ) * calibration_factor)))

/-- `TB6612Controller.set_motor_speed`: refuse when uninitialized, leave
standby if needed, clamp the speed to `[0, 100]`, raise a nonzero speed below
`min_duty_cycle` to `min_duty_cycle`, then dispatch per channel. -/
def set_motor_speed (c : TB6612Controller) (channel : Chan) (speed_percent : Int)
    (direction : Direction) : Bool × TB6612Controller × List HWEvent :=
  if !c.is_init then (false, c, [])
  else
    let step := if c.standby_active then enable c else (c, [])
    let c1 := step.1
    let ev0 := step.2
    let sp1 := clampSpeed speed_percent
    match channel with
    | .A =>
      let (ok, c2, ev) := set_motor_a c1 sp1 direction
      (ok, c2, ev0 ++ ev)
    | .B =>
      let (ok, c2, ev) := set_motor_b c1 sp1 direction
      (ok, c2, ev0 ++ ev)

/-- `TB6612Controller.stop_motor`. -/
def stop_motor (c : TB6612Controller) (channel : Chan) :
    Bool × TB6612Controller × List HWEvent :=
  set_motor_speed c channel 0 .stopped

/-- `TB6612Controller.stop_all`. -/
def stop_all (c : TB6612Controller) : TB6612Controller × List HWEvent :=
  stop_all_motors c

/-- `TB6612Controller.disable`: stop all motors, then drive STBY low. -/
def disable (c : TB6612Controller) : TB6612Controller × List HWEvent :=
  let (c1, ev1) := stop_all_motors c
  ({ c1 with stby_level := .low, standby_active := true },
   ev1 ++ [.out c.config.stby .low])

/-- `TB6612Controller.cleanup`: stop all motors, stop both PWMs, disable. -/
def cleanup (c : TB6612Controller) : TB6612Controller × List HWEvent :=
  if c.is_init then
    let (c1, ev1) := stop_all_motors c
    let ev2 : List HWEvent :=
      (if c1.pwm_a.isSome then [.pwmStop c.config.pwma] else [])
        ++ (if c1.pwm_b.isSome then [.pwmStop c.config.pwmb] else [])
    let (c2, ev3) := disable c1
    ({ c2 with is_init := false }, ev1 ++ ev2 ++ ev3)
  else (c, [])

/-- `TB6612Controller.get_motor_status`. -/
def get_motor_status (c : TB6612Controller) (channel : Chan) : PumpStatus :=
  match channel with
  | .A => c.motor_a_status
  | .B => c.motor_b_status

/-- Duty cycle currently produced on channel A (0 when no PWM is running). -/
def dutyA (c : TB6612Controller) : Int := c.pwm_a.getD 0

/-- Duty cycle currently produced on channel B (0 when no PWM is running). -/
def dutyB (c : TB6612Controller) : Int := c.pwm_b.getD 0

/-- The `TB6612_CONTROLLERS` table of `hardware_config.py`. -/
def TB6612_CONTROLLERS : List TB6612FNGConfig :=
  [⟨2, 3, 4, 17, 12, 13, 26⟩,
   ⟨27, 22, 10, 9, 12, 13, 26⟩,
   ⟨11, 5, 6, 19, 12, 13, 26⟩,
   ⟨16, 20, 21, 1, 12, 13, 26⟩,
   ⟨7, 8, 25, 24, 12, 13, 26⟩,
   ⟨23, 18, 15, 14, 12, 13, 26⟩]

/-- The `PUMP_CONFIGS` table of `hardware_config.py`. -/
def PUMP_CONFIGS : List PumpConfig :=
  [⟨1, 0, .A, "Gin", 2.8, 1.0, 750⟩,
   ⟨2, 0, .B, "Whisky bourbon", 2.8, 1.0, 750⟩,
   ⟨3, 1, .A, "Rhum blanc", 2.8, 1.0, 750⟩,
   ⟨4, 1, .B, "Amaretto", 2.8, 1.0, 750⟩,
   ⟨5, 2, .A, "Campari", 2.5, 1.0, 750⟩,
   ⟨6, 2, .B, "Vermouth rouge", 2.5, 1.0, 750⟩,
   ⟨7, 3, .A, "Jus de citron frais", 3.2, 1.0, 1000⟩,
   ⟨8, 3, .B, "Jus de citron vert", 3.2, 1.0, 1000⟩,
   ⟨9, 4, .A, "Sirop simple", 2.0, 1.0, 500⟩,
   ⟨10, 4, .B, "Vermouth blanc sec", 2.5, 1.0, 500⟩,
   ⟨11, 5, .A, "Liqueur de violette", 1.8, 1.0, 500⟩,
   ⟨12, 5, .B, "Miel", 1.5, 1.0, 500⟩]

/-- State of `tb6612_controller.PumpManager`. -/
structure PumpManager where
  controllers : List TB6612Controller
  pumps : List PumpConfig
  is_init : Bool
  emergency_flag : Bool
deriving DecidableEq

/-- `PumpManager.__init__` over given configuration tables. -/
def PumpManager.new (ctrls : List TB6612FNGConfig) (ps : List PumpConfig) : PumpManager :=
  { controllers := ctrls.enum.map (fun ic => TB6612Controller.new ic.2 ic.1)
    pumps := ps
    is_init := false
    emergency_flag := false }

/-- Dictionary lookup `self.pumps.get(pump_id)`. -/
def getPump (m : PumpManager) (pump_id : Nat) : Option PumpConfig :=
  m.pumps.find? (fun p => p.pump_id == pump_id)

/-- Dictionary lookup `self.controllers.get(index)`. -/
def getController (m : PumpManager) (i : Nat) : Option TB6612Controller :=
  m.controllers.get? i

/-- Replace the controller at index `i`. -/
def setControllerAt (m : PumpManager) (i : Nat) (c : TB6612Controller) : PumpManager :=
  { m with controllers := m.controllers.set i c }

/-- `PumpManager.initialize`: initialize every controller. -/
def initManager (m : PumpManager) : Bool × PumpManager × List HWEvent :=
  if m.is_init then (true, m, [])
  else
    let step := m.controllers.map initController
    (true,
     { m with controllers := step.map Prod.fst, is_init := true },
     (step.map Prod.snd).flatten)

/-- Record `status.last_started = time.time()` on the pump's channel. -/
def markStarted (c : TB6612Controller) (channel : Chan) (now : ℚ) : TB6612Controller :=
  match channel with
  | .A => { c with motor_a_status := { c.motor_a_status with last_started := some now } }
  | .B => { c with motor_b_status := { c.motor_b_status with last_started := some now } }

/-- Runtime bookkeeping of `PumpManager.stop_pump`. -/
def markStopped (c : TB6612Controller) (channel : Chan) (now : ℚ) : TB6612Controller :=
  match channel with
  | .A =>
    match c.motor_a_status.last_started with
    | some t0 => { c with motor_a_status := { c.motor_a_status with
        total_runtime := c.motor_a_status.total_runtime + (now - t0)
        last_started := none } }
    | none => c
  | .B =>
    match c.motor_b_status.last_started with
    | some t0 => { c with motor_b_status := { c.motor_b_status with
        total_runtime := c.motor_b_status.total_runtime + (now - t0)
        last_started := none } }
    | none => c

/-- `PumpManager.start_pump`: refuse under emergency stop, look up pump and
controller, scale the requested speed by the calibration factor (`int()`
truncation), clamp to `[min_duty_cycle, max_duty_cycle]` and drive the
channel forward. -/
def start_pump (m : PumpManager) (pump_id : Nat) (speed_percent : Int) (now : ℚ) :
    Bool × PumpManager × List HWEvent :=
  if m.emergency_flag then (false, m, [])
  else
    match getPump m pump_id with
    | none => (false, m, [])
    | some pump =>
      match getController m pump.tb6612_controller with
      | none => (false, m, [])
      | some controller =>
        let adjusted := adjustedSpeed speed_percent pump.calibration_factor
        let (ok, c1, ev) := set_motor_speed controller pump.motor_channel adjusted .forward
        let c2 := if ok then markStarted c1 pump.motor_channel now else c1
        (ok, setControllerAt m pump.tb6612_controller c2, ev)

/-- `PumpManager.stop_pump`. -/
def stop_pump (m : PumpManager) (pump_id : Nat) (now : ℚ) :
    Bool × PumpManager × List HWEvent :=
  match getPump m pump_id with
  | none => (false, m, [])
  | some pump =>
    match getController m pump.tb6612_controller with
    | none => (false, m, [])
    | some controller =>
      let (ok, c1, ev) := stop_motor controller pump.motor_channel
      let c2 := if ok then markStopped c1 pump.motor_channel now else c1
      (ok, setControllerAt m pump.tb6612_controller c2, ev)

/-- `status.volume_dispensed += volume_ml` at the end of `pour_volume`. -/
def creditVolume (m : PumpManager) (pump_id : Nat) (volume_ml : ℚ) : PumpManager :=
  match getPump m pump_id with
  | none => m
  | some pump =>
    match getController m pump.tb6612_controller with
    | none => m
    | some c =>
      let c1 := match pump.motor_channel with
        | .A => { c with motor_a_status := { c.motor_a_status with
            volume_dispensed := c.motor_a_status.volume_dispensed + volume_ml } }
        | .B => { c with motor_b_status := { c.motor_b_status with
            volume_dispensed := c.motor_b_status.volume_dispensed + volume_ml } }
      setControllerAt m pump.tb6612_controller c1

/-- `PumpManager.pour_volume`.  A non-positive volume returns `True` without
touching the hardware; a pour time above `max_pour_time` returns `False`.
`interrupt = some t` means an exception (cancellation or emergency) ends the
`time.sleep` wait after `t` seconds: the source's `except` branch then stops
the pump and returns `False` without crediting any volume. -/
def pour_volume (m : PumpManager) (pump_id : Nat) (volume_ml : ℚ)
    (speed_percent : Int) (now : ℚ) (interrupt : Option ℚ) :
    Bool × PumpManager × List HWEvent :=
  match getPump m pump_id with
  | none => (false, m, [])
  | some pump =>
    if volume_ml ≤ 0 then (true, m, [])
    else
      let pour_time := volume_ml / pump.effective_flow_rate
      if TIMING_CONFIG_max_pour_time < pour_time then (false, m, [])
      else
        let (ok1, m1, ev1) := start_pump m pump_id speed_percent now
        if !ok1 then (false, m1, ev1)
        else
          match interrupt with
          | some t =>
            let (_, m2, ev2) := stop_pump m1 pump_id (now + t)
            (false, m2, ev1 ++ ev2)
          | none =>
            let (ok2, m2, ev2) := stop_pump m1 pump_id (now + pour_time)
            if !ok2 then (false, m2, ev1 ++ ev2)
            else (true, creditVolume m2 pump_id volume_ml, ev1 ++ ev2)

/-- `PumpManager.emergency_stop`: set the flag, then stop every controller,
all within the call (the returned trace is issued before the function
returns). -/
def emergency_stop (m : PumpManager) : PumpManager × List HWEvent :=
  let m1 := { m with emergency_flag := true }
  let step := m1.controllers.map stop_all
  ({ m1 with controllers := step.map Prod.fst }, (step.map Prod.snd).flatten)

/-- `PumpManager.reset_emergency_stop`. -/
def reset_emergency_stop (m : PumpManager) : PumpManager :=
  { m with emergency_flag := false }

/-- The pump manager right after `PumpManager()` + `initialize()` on the
configuration tables of `hardware_config.py`. -/
def pumpManager0 : PumpManager :=
  (initManager (PumpManager.new TB6612_CONTROLLERS PUMP_CONFIGS)).2.1

/-- Spec invariant P1 for one channel status:
`status = Pumping ⇔ direction ≠ Stopped ∧ speed_percent > 0`. -/
def P1 (st : PumpStatus) : Prop :=
  st.is_running = true ↔ (st.direction ≠ Direction.stopped ∧ 0 < st.speed_percent)

/-- Spec invariant P2 for one channel:
`status = Idle ⇒ both direction pins driven low AND duty = 0`. -/
def P2 (c : TB6612Controller) (channel : Chan) : Prop :=
  match channel with
  | .A => c.motor_a_status.is_running = false →
      c.ain1_level = Level.low ∧ c.ain2_level = Level.low ∧ dutyA c = 0
  | .B => c.motor_b_status.is_running = false →
      c.bin1_level = Level.low ∧ c.bin2_level = Level.low ∧ dutyB c = 0

end Tb6612

namespace Hw

/-- Configuration of one pump (`pumps.PumpConfig` in
`cocktail_machine/hardware/pumps.py`). -/
structure PumpConfig where
  id : String
  pwm_pin : Nat
  in1_pin : Nat
  in2_pin : Nat
  ingredient : String
  flow_rate_ml_s : ℚ
  max_volume_ml : ℚ
  calibration_factor : ℚ
  enabled : Bool
deriving DecidableEq

/-- `pumps.PumpStatus` enum. -/
inductive PumpStatus
  | IDLE
  | PUMPING
  | ERROR
  | DISABLED
  | CALIBRATING
deriving DecidableEq

/-- State of a `MockPWM`/`RPi.GPIO.PWM` object: `stop()` clears `running`
but keeps the last duty cycle, exactly as `MockPWM` does. -/
structure PWMState where
  running : Bool
  duty_cycle : Int
deriving DecidableEq

/-- State of `pumps.TB6612Controller` (one channel: one PWM pin plus two
direction pins). -/
structure TB6612Controller where
  pwm_pin : Nat
  in1_pin : Nat
  in2_pin : Nat
  pwm : Option PWMState
  is_running : Bool
  in1_level : Level
  in2_level : Level
deriving DecidableEq

/-- `TB6612Controller.__init__` + `_setup_pins`: direction pins driven low,
no PWM object yet. -/
def TB6612Controller.new (pwm_pin in1_pin in2_pin : Nat) :
    TB6612Controller × List HWEvent :=
  ({ pwm_pin := pwm_pin
     in1_pin := in1_pin
     in2_pin := in2_pin
     pwm := none
     is_running := false
     in1_level := .low
     in2_level := .low },
   [.out in1_pin .low, .out in2_pin .low])

/-- `TB6612Controller.stop`: stop the PWM first, then clear both direction
pins. -/
def stop (c : TB6612Controller) : TB6612Controller × List HWEvent :=
  let evPwm : List HWEvent := if c.pwm.isSome then [.pwmStop c.pwm_pin] else []
  let c1 := { c with
    pwm := c.pwm.map (fun p => { p with running := false })
    in1_level := .low
    in2_level := .low
    is_running := false }
  (c1, evPwm ++ [.out c.in1_pin .low, .out c.in2_pin .low])

/-- `TB6612Controller.start`: stop first if already running, create the PWM
object on first use, drive the direction pins, clamp the speed to `[0, 100]`
and start the PWM. -/
def start (c : TB6612Controller) (speed : Int) (direction : Direction) :
    TB6612Controller × List HWEvent :=
  let step0 := if c.is_running then stop c else (c, [])
  let c0 := step0.1
  let c1 := if c0.pwm.isNone then
      { c0 with pwm := some { running := false, duty_cycle := 0 } } else c0
  let lv1 : Level := if direction = .forward then .high else .low
  let lv2 : Level := if direction = .forward then .low else .high
  let sp := max 0 (min 100 speed)
  let c2 := { c1 with
    in1_level := lv1
    in2_level := lv2
    pwm := c1.pwm.map (fun p => { p with running := true, duty_cycle := sp })
    is_running := true }
  (c2, step0.2 ++ [.out c.in1_pin lv1, .out c.in2_pin lv2, .pwmStart c.pwm_pin sp])

/-- `pumps.PumpOperation`. -/
structure PumpOperation where
  pump_id : String
  target_volume_ml : ℚ
  start_time : ℚ
  estimated_duration_s : ℚ
  current_volume_ml : ℚ
  op_status : PumpStatus
deriving DecidableEq

/-- State of `pumps.Pump`. -/
structure Pump where
  config : PumpConfig
  controller : TB6612Controller
  status : PumpStatus
  current_operation : Option PumpOperation
deriving DecidableEq

/-- `Pump.stop_immediately`: stop the channel, force `status = IDLE`, clear
the current operation. -/
def stop_immediately (p : Pump) : Pump × List HWEvent :=
  let (c1, ev) := stop p.controller
  ({ p with controller := c1, status := .IDLE, current_operation := none }, ev)

/-- `Pump.calibrate`: reject a non-positive measurement; otherwise blend the
raw factor `expected/measured` into the stored factor with weights 0.7/0.3.
The source applies no clamp and no range check. -/
def calibrate (p : Pump) (expected_ml measured_ml : ℚ) : Bool × Pump :=
  if measured_ml ≤ 0 then (false, p)
  else
    let new_factor := expected_ml / measured_ml
    let old_factor := p.config.calibration_factor
    (true,
     { p with config := { p.config with
         calibration_factor := old_factor * 0.7 + new_factor * 0.3 } })

/-- State of `pumps.PumpManager`. -/
structure PumpManager where
  pumps : List Pump
  emergency_stop_flag : Bool
deriving DecidableEq

/-- `PumpManager.emergency_stop`: set the flag, then `stop_immediately`
every pump before returning. -/
def emergency_stop (m : PumpManager) : PumpManager × List HWEvent :=
  let m1 := { m with emergency_stop_flag := true }
  let step := m1.pumps.map stop_immediately
  ({ m1 with pumps := step.map Prod.fst }, (step.map Prod.snd).flatten)

/-- `PumpManager.reset_emergency`: unconditionally clear the flag. -/
def reset_emergency (m : PumpManager) : PumpManager :=
  { m with emergency_stop_flag := false }

end Hw

namespace Cm

/-- The fields of a recipe ingredient that `CocktailMaker.prepare_cocktail`
consumes. -/
structure Ingredient where
  name : String
  amount_ml : ℚ
  category : String
  is_available : Bool
  pump_id : Option Nat
deriving DecidableEq

/-- `CocktailMaker._get_pour_order`: the category-rank dictionary, with the
source's fallback rank 3 for unknown categories. -/
def get_pour_order (category : String) : Nat :=
  if category = "spirits" then 1
  else if category = "syrups" then 2
  else if category = "juices" then 3
  else if category = "mixers" then 4
  else if category = "garnish" then 5
  else 3

/-- Stable insertion used to model Python's stable `sorted(..., key=...)`:
an element is inserted after every element of strictly smaller key and
before every element of greater-or-equal key. -/
def insertStable {α : Type} (key : α → Nat) (x : α) : List α → List α
  | [] => [x]
  | y :: ys => if key y < key x then y :: insertStable key x ys else x :: y :: ys

/-- Stable sort by key, the model of Python's `sorted(l, key=key)` (the
output of a stable sort is uniquely determined: sorted by key, with the
input order preserved inside every key class). -/
def sortStable {α : Type} (key : α → Nat) : List α → List α
  | [] => []
  | x :: xs => insertStable key x (sortStable key xs)

/-- The sequence of ingredients `prepare_cocktail` actually dispenses: the
recipe's ingredients sorted by `_get_pour_order`, with garnish pours and
unavailable or unbound pours skipped. -/
def dispensed (ings : List Ingredient) : List Ingredient :=
  (sortStable (fun i => get_pour_order i.category) ings).filter
    (fun i => !(i.category == "garnish") && i.is_available && i.pump_id.isSome)

end Cm

/-- Recognizes the hardware command that ends PWM drive on a channel:
either an explicit duty-cycle write of 0 or a `pwm.stop()`. -/
def isDutyCeaseFor (pwmPin : Nat) : HWEvent → Bool
  | .setDuty p d => p == pwmPin && d == 0
  | .pwmStop p => p == pwmPin
  | _ => false

/-- Recognizes a write of `Low` to one of the two direction pins. -/
def isDirClearFor (p1 p2 : Nat) : HWEvent → Bool
  | .out p .low => p == p1 || p == p2
  | _ => false

/-- True when, in the trace, PWM drive ceases strictly before any direction
pin of the channel is cleared (and such a cease event exists). -/
def dutyZeroFirst (pwmPin p1 p2 : Nat) : List HWEvent → Bool
  | [] => false
  | e :: rest =>
    if isDirClearFor p1 p2 e then false
    else if isDutyCeaseFor pwmPin e then true
    else dutyZeroFirst pwmPin p1 p2 rest

/-- True when, in the trace, a direction pin of the channel is cleared
strictly before PWM drive ceases (and such a pin write exists). -/
def dirClearFirst (pwmPin p1 p2 : Nat) : List HWEvent → Bool
  | [] => false
  | e :: rest =>
    if isDutyCeaseFor pwmPin e then false
    else if isDirClearFor p1 p2 e then true
    else dirClearFirst pwmPin p1 p2 rest

namespace Tb6612

/-- `PumpManager.get_pump_status`. -/
def get_pump_status (m : PumpManager) (pump_id : Nat) : Option PumpStatus :=
  match getPump m pump_id with
  | none => none
  | some pump =>
    match getController m pump.tb6612_controller with
    | none => none
    | some c => some (get_motor_status c pump.motor_channel)

/-- The PWM pin driving a given channel. -/
def pwmPinOf (c : TB6612Controller) : Chan → Nat
  | .A => c.config.pwma
  | .B => c.config.pwmb

/-- The PWM object (current duty) of a given channel. -/
def pwmOf (c : TB6612Controller) : Chan → Option Int
  | .A => c.pwm_a
  | .B => c.pwm_b

/-- The two direction-pin levels of a given channel. -/
def dirLevels (c : TB6612Controller) : Chan → Level × Level
  | .A => (c.ain1_level, c.ain2_level)
  | .B => (c.bin1_level, c.bin2_level)

end Tb6612

/-- Controller 0 (pins `ain1=2, ain2=3, pwma=12`) right after `initialize`. -/
def tbC0 : Tb6612.TB6612Controller :=
  (Tb6612.initController (Tb6612.TB6612Controller.new ⟨2, 3, 4, 17, 12, 13, 26⟩ 0)).1

/-- The fleet right after `start_pump(1, 100)` at time 0: pump 1 (Gin,
controller 0 channel A) is running. -/
def startedFleet : Tb6612.PumpManager :=
  (Tb6612.start_pump Tb6612.pumpManager0 1 100 0).2.1

/-- The fleet state observable mid-`emergency_stop`: the flag is already
raised while pump 1 is still running (the source sets `_emergency_stop`
before it stops any channel). -/
def emergencyMidPour : Tb6612.PumpManager :=
  { startedFleet with emergency_flag := true }

/-- The `pump_1` (Gin) pump of `DEFAULT_GPIO_CONFIG` in
`cocktail_machine/hardware/pumps.py`, freshly constructed. -/
def hwGinPump : Hw.Pump :=
  { config := { id := "pump_1"
                pwm_pin := 18
                in1_pin := 22
                in2_pin := 23
                ingredient := "Gin"
                flow_rate_ml_s := 2.5
                max_volume_ml := 1000.0
                calibration_factor := 1.0
                enabled := true }
    controller := (Hw.TB6612Controller.new 18 22 23).1
    status := .IDLE
    current_operation := none }

/-- The Gin pump's channel after its first `start`: the PWM object exists. -/
def hwCtrlStarted : Hw.TB6612Controller :=
  (Hw.start hwGinPump.controller 80 .forward).1

/-- The Gin pump mid-dispense: channel started, status `PUMPING`. -/
def hwPumpingGin : Hw.Pump :=
  { hwGinPump with status := .PUMPING, controller := hwCtrlStarted }

/-- Scenario S2's Cola pour (category mixers). -/
def colaPour : Cm.Ingredient :=
  { name := "Cola", amount_ml := 120, category := "mixers",
    is_available := true, pump_id := some 8 }

/-- Scenario S2's Rum pour (category spirits). -/
def rumPour : Cm.Ingredient :=
  { name := "Rum", amount_ml := 50, category := "spirits",
    is_available := true, pump_id := some 3 }

/-- Controller 0 of the fleet after `emergency_stop`, for the C1 witness. -/
def stoppedC0 : Tb6612.TB6612Controller :=
  (((Tb6612.emergency_stop Tb6612.pumpManager0).1.controllers).get? 0).getD
    (Tb6612.TB6612Controller.new ⟨2, 3, 4, 17, 12, 13, 26⟩ 0)

/-- C8: for every calibration with `measured_ml > 0`, `Pump.calibrate`
succeeds and updates the factor to exactly
`0.7·old_factor + 0.3·(expected_ml / measured_ml)`; with `measured_ml ≤ 0`
it is rejected and the pump is unchanged. -/
theorem calibrate_smoothing (p : Hw.Pump) (expected_ml measured_ml : ℚ) :
    (0 < measured_ml →
      (Hw.calibrate p expected_ml measured_ml).1 = true ∧
      (Hw.calibrate p expected_ml measured_ml).2.config.calibration_factor =
        0.7 * p.config.calibration_factor + 0.3 * (expected_ml / measured_ml)) ∧
    (measured_ml ≤ 0 →
      (Hw.calibrate p expected_ml measured_ml).1 = false ∧
      (Hw.calibrate p expected_ml measured_ml).2 = p) := by
  constructor
  · intro h
    rw [Hw.calibrate, if_neg (not_le.mpr h)]
    exact ⟨rfl, by ring⟩
  · intro h
    rw [Hw.calibrate, if_pos h]
    exact ⟨rfl, rfl⟩

/-- Witness for C8 at the spec's own example: factor 1.0, expected 50 ml,
measured 45 ml (blended factor 31/30 ≈ 1.0333). -/
theorem calibrate_smoothing_witness :
    (0 < (45 : ℚ)) ∧
    ((Hw.calibrate hwGinPump 50 45).1 = true ∧
      (Hw.calibrate hwGinPump 50 45).2.config.calibration_factor =
        0.7 * hwGinPump.config.calibration_factor + 0.3 * ((50 : ℚ) / 45)) :=
  ⟨by norm_num, (calibrate_smoothing hwGinPump 50 45).1 (by norm_num)⟩

/-- C7 counterexample: with factor 1.0, expected 100 ml and measured 10 ml
the raw factor 10 lies outside [0.5, 2.0]; `Pump.calibrate` does not reject
it (`OutOfBounds` is nowhere in the source) and stores the unclamped blend
3.7, itself outside [0.5, 2.0]. -/
theorem calibrate_clamp_counterexample :
    2 < (100 : ℚ) / 10 ∧
    (Hw.calibrate hwGinPump 100 10).1 = true ∧
    (Hw.calibrate hwGinPump 100 10).2.config.calibration_factor = 3.7 ∧
    ¬ (Hw.calibrate hwGinPump 100 10).2.config.calibration_factor ≤ 2 := by
  decide

/-- C7 amended: `Pump.calibrate` applies no clamp and no range rejection:
whenever `measured_ml > 0`, even a raw factor outside [0.5, 2.0] is accepted
and the stored factor is the unclamped blend. -/
theorem calibrate_unclamped (p : Hw.Pump) (expected_ml measured_ml : ℚ)
    (hm : 0 < measured_ml)
    (hout : expected_ml / measured_ml < 0.5 ∨ 2 < expected_ml / measured_ml) :
    (Hw.calibrate p expected_ml measured_ml).1 = true ∧
    (Hw.calibrate p expected_ml measured_ml).2.config.calibration_factor =
      0.7 * p.config.calibration_factor + 0.3 * (expected_ml / measured_ml) := by
  rw [Hw.calibrate, if_neg (not_le.mpr hm)]
  exact ⟨rfl, by ring⟩

/-- Witness for the amended C7 at factor 1.0, expected 100 ml, measured
10 ml. -/
theorem calibrate_unclamped_witness :
    (0 < (10 : ℚ)) ∧
    ((100 : ℚ) / 10 < 0.5 ∨ 2 < (100 : ℚ) / 10) ∧
    ((Hw.calibrate hwGinPump 100 10).1 = true ∧
      (Hw.calibrate hwGinPump 100 10).2.config.calibration_factor =
        0.7 * hwGinPump.config.calibration_factor + 0.3 * ((100 : ℚ) / 10)) :=
  ⟨by norm_num, by norm_num,
   calibrate_unclamped hwGinPump 100 10 (by norm_num) (by norm_num)⟩

/-- C3 counterexample: in the state reached mid-`emergency_stop` (flag
already raised, pump 1 still running), `reset_emergency_stop` clears the
flag and "succeeds" although a pump is not Idle: the source has no
quiescence check and no `NotQuiesced` error. -/
theorem reset_emergency_counterexample :
    (Tb6612.get_pump_status emergencyMidPour 1).map (fun s => s.is_running) =
      some true ∧
    emergencyMidPour.emergency_flag = true ∧
    (Tb6612.reset_emergency_stop emergencyMidPour).emergency_flag = false := by
  decide

/-- C3 amended: `reset_emergency_stop` unconditionally clears the emergency
flag — even while a pump is running — and changes nothing else; the
`reset_emergency` of `cocktail_machine/hardware/pumps.py` behaves the same
way. -/
theorem reset_emergency_unconditional (m : Tb6612.PumpManager) (pump_id : Nat)
    (st : Tb6612.PumpStatus) (h : Tb6612.get_pump_status m pump_id = some st)
    (hrun : st.is_running = true) :
    (Tb6612.reset_emergency_stop m).emergency_flag = false ∧
    Tb6612.get_pump_status (Tb6612.reset_emergency_stop m) pump_id = some st ∧
    (∀ k : Hw.PumpManager,
      (Hw.reset_emergency k).emergency_stop_flag = false ∧
      (Hw.reset_emergency k).pumps = k.pumps) :=
  ⟨rfl, h, fun _ => ⟨rfl, rfl⟩⟩

/-- Witness for the amended C3 in the mid-emergency state with pump 1
running. -/
theorem reset_emergency_unconditional_witness :
    Tb6612.get_pump_status emergencyMidPour 1 = some
      { is_running := true
        direction := .forward
        speed_percent := 100
        volume_dispensed := 0
        total_runtime := 0
        last_started := some 0
        error_state := false } ∧
    ({ is_running := true
       direction := .forward
       speed_percent := 100
       volume_dispensed := 0
       total_runtime := 0
       last_started := some 0
       error_state := false } : Tb6612.PumpStatus).is_running = true ∧
    ((Tb6612.reset_emergency_stop emergencyMidPour).emergency_flag = false ∧
      Tb6612.get_pump_status (Tb6612.reset_emergency_stop emergencyMidPour) 1 = some
        { is_running := true
          direction := .forward
          speed_percent := 100
          volume_dispensed := 0
          total_runtime := 0
          last_started := some 0
          error_state := false } ∧
      (∀ k : Hw.PumpManager,
        (Hw.reset_emergency k).emergency_stop_flag = false ∧
        (Hw.reset_emergency k).pumps = k.pumps)) :=
  ⟨by decide, by decide,
   reset_emergency_unconditional emergencyMidPour 1 _ (by decide) (by decide)⟩

/-- C1: after `PumpManager.emergency_stop` returns, the emergency flag is
set and every controller of the fleet — hence every pump's channel — has all
four direction pins driven low, both duty cycles at 0 and both channel
statuses not running; the trace issued by the call itself is one
`stop_all` per controller, so the channel-stop commands are issued
synchronously before `emergency_stop` returns. -/
theorem emergency_stop_spec (m : Tb6612.PumpManager) (c : Tb6612.TB6612Controller)
    (hc : c ∈ (Tb6612.emergency_stop m).1.controllers) :
    (Tb6612.emergency_stop m).1.emergency_flag = true ∧
    c.ain1_level = Level.low ∧ c.ain2_level = Level.low ∧
    c.bin1_level = Level.low ∧ c.bin2_level = Level.low ∧
    Tb6612.dutyA c = 0 ∧ Tb6612.dutyB c = 0 ∧
    c.motor_a_status.is_running = false ∧ c.motor_b_status.is_running = false ∧
    (Tb6612.emergency_stop m).2 =
      (m.controllers.map (fun c0 => (Tb6612.stop_all c0).2)).flatten := by
  refine ⟨rfl, ?_⟩
  have htr : (Tb6612.emergency_stop m).2 =
      (m.controllers.map (fun c0 => (Tb6612.stop_all c0).2)).flatten := by
    simp [Tb6612.emergency_stop, List.map_map]
    rfl
  simp only [Tb6612.emergency_stop, List.map_map] at hc
  rcases List.mem_map.mp hc with ⟨c0, _, rfl⟩
  refine ⟨rfl, rfl, rfl, rfl, ?_, ?_, rfl, rfl, htr⟩
  · show Tb6612.dutyA (Tb6612.stop_all_motors c0).1 = 0
    cases h : c0.pwm_a <;> simp [Tb6612.stop_all_motors, Tb6612.dutyA, h]
  · show Tb6612.dutyB (Tb6612.stop_all_motors c0).1 = 0
    cases h : c0.pwm_b <;> simp [Tb6612.stop_all_motors, Tb6612.dutyB, h]

/-- Witness for C1 on the initialized fleet. -/
theorem emergency_stop_spec_witness :
    stoppedC0 ∈ (Tb6612.emergency_stop Tb6612.pumpManager0).1.controllers ∧
    ((Tb6612.emergency_stop Tb6612.pumpManager0).1.emergency_flag = true ∧
      stoppedC0.ain1_level = Level.low ∧ stoppedC0.ain2_level = Level.low ∧
      stoppedC0.bin1_level = Level.low ∧ stoppedC0.bin2_level = Level.low ∧
      Tb6612.dutyA stoppedC0 = 0 ∧ Tb6612.dutyB stoppedC0 = 0 ∧
      stoppedC0.motor_a_status.is_running = false ∧
      stoppedC0.motor_b_status.is_running = false ∧
      (Tb6612.emergency_stop Tb6612.pumpManager0).2 =
        (Tb6612.pumpManager0.controllers.map
          (fun c0 => (Tb6612.stop_all c0).2)).flatten) :=
  ⟨by decide, emergency_stop_spec Tb6612.pumpManager0 stoppedC0 (by decide)⟩

/-- C4 counterexample: on an initialized controller, `stop_motor('A')`
issues `[out ain1 low, out ain2 low, setDuty pwma 0]`: the direction pins
are cleared BEFORE the duty cycle is driven to 0, so the claimed
"duty to 0 strictly before pins cleared" ordering is violated. -/
theorem stop_order_counterexample :
    (Tb6612.stop_motor tbC0 .A).2.2 =
      [.out 2 .low, .out 3 .low, .setDuty 12 0] ∧
    dutyZeroFirst 12 2 3 (Tb6612.stop_motor tbC0 .A).2.2 = false ∧
    dirClearFirst 12 2 3 (Tb6612.stop_motor tbC0 .A).2.2 = true := by
  decide

/-- C4 amended: in `tb6612_controller.py` every stopping operation
(`stop_motor` on either channel, `stop_all`, `cleanup`, and hence the
Stopped branch of `set_motor_speed`) clears the direction pins strictly
BEFORE driving the duty cycle to 0 — the reverse of the claimed order; only
`TB6612Controller.stop` of `cocktail_machine/hardware/pumps.py` stops the
PWM before clearing its direction pins. -/
theorem stop_order_amended (c : Tb6612.TB6612Controller) (k : Hw.TB6612Controller)
    (hi : c.is_init = true) (hd : c.config.pwma ≠ c.config.pwmb)
    (hk : k.pwm.isSome = true) :
    dirClearFirst c.config.pwma c.config.ain1 c.config.ain2
      (Tb6612.stop_motor c .A).2.2 = true ∧
    dirClearFirst c.config.pwmb c.config.bin1 c.config.bin2
      (Tb6612.stop_motor c .B).2.2 = true ∧
    dirClearFirst c.config.pwma c.config.ain1 c.config.ain2
      (Tb6612.stop_all c).2 = true ∧
    dirClearFirst c.config.pwmb c.config.bin1 c.config.bin2
      (Tb6612.stop_all c).2 = true ∧
    dirClearFirst c.config.pwma c.config.ain1 c.config.ain2
      (Tb6612.cleanup c).2 = true ∧
    dutyZeroFirst k.pwm_pin k.in1_pin k.in2_pin (Hw.stop k).2 = true := by
  refine ⟨?_, ?_, ?_, ?_, ?_, ?_⟩
  · by_cases hs : c.standby_active <;>
      simp [Tb6612.stop_motor, Tb6612.set_motor_speed, hi, hs, Tb6612.enable,
        Tb6612.set_motor_a, dirClearFirst, isDirClearFor, isDutyCeaseFor]
  · by_cases hs : c.standby_active <;>
      simp [Tb6612.stop_motor, Tb6612.set_motor_speed, hi, hs, Tb6612.enable,
        Tb6612.set_motor_b, dirClearFirst, isDirClearFor, isDutyCeaseFor]
  · simp [Tb6612.stop_all, Tb6612.stop_all_motors, dirClearFirst,
      isDirClearFor, isDutyCeaseFor]
  · cases h : c.pwm_a <;>
      simp [Tb6612.stop_all, Tb6612.stop_all_motors, dirClearFirst,
        isDirClearFor, isDutyCeaseFor, h, bne_iff_ne, hd]
  · simp [Tb6612.cleanup, hi, Tb6612.stop_all_motors, Tb6612.disable,
      dirClearFirst, isDirClearFor, isDutyCeaseFor]
  · rcases hpw : k.pwm with _ | pw
    · rw [hpw] at hk; simp at hk
    · simp [Hw.stop, hpw, dutyZeroFirst, isDirClearFor, isDutyCeaseFor]

/-- Witness for the amended C4 on controller 0 and the started Gin channel
of the Kivy hardware layer. -/
theorem stop_order_amended_witness :
    tbC0.is_init = true ∧ tbC0.config.pwma ≠ tbC0.config.pwmb ∧
    hwCtrlStarted.pwm.isSome = true ∧
    (dirClearFirst tbC0.config.pwma tbC0.config.ain1 tbC0.config.ain2
      (Tb6612.stop_motor tbC0 .A).2.2 = true ∧
    dirClearFirst tbC0.config.pwmb tbC0.config.bin1 tbC0.config.bin2
      (Tb6612.stop_motor tbC0 .B).2.2 = true ∧
    dirClearFirst tbC0.config.pwma tbC0.config.ain1 tbC0.config.ain2
      (Tb6612.stop_all tbC0).2 = true ∧
    dirClearFirst tbC0.config.pwmb tbC0.config.bin1 tbC0.config.bin2
      (Tb6612.stop_all tbC0).2 = true ∧
    dirClearFirst tbC0.config.pwma tbC0.config.ain1 tbC0.config.ain2
      (Tb6612.cleanup tbC0).2 = true ∧
    dutyZeroFirst hwCtrlStarted.pwm_pin hwCtrlStarted.in1_pin
      hwCtrlStarted.in2_pin (Hw.stop hwCtrlStarted).2 = true) :=
  ⟨by decide, by decide, by decide,
   stop_order_amended tbC0 hwCtrlStarted (by decide) (by decide) (by decide)⟩

/-- C5 counterexample: `set_motor_speed('A', 0, 'forward')` on an
initialized controller records the channel as not running (Idle) yet drives
the forward pin pattern `ain1 = High, ain2 = Low` with duty 0, violating
invariant P2 — exactly the "speed 0 with direction Forward" case the claim
includes. -/
theorem set_channel_P2_counterexample :
    (Tb6612.set_motor_speed tbC0 .A 0 .forward).2.1.motor_a_status.is_running = false ∧
    (Tb6612.set_motor_speed tbC0 .A 0 .forward).2.1.ain1_level = Level.high ∧
    ¬ Tb6612.P2 (Tb6612.set_motor_speed tbC0 .A 0 .forward).2.1 .A := by
  refine ⟨by decide, by decide, fun h => ?_⟩
  exact absurd (h (by decide)).1 (by decide)

/-- C5 amended: every `set_motor_speed` call on an initialized controller
re-establishes invariant P1 on the channel's status, and P2 is
re-established whenever the direction argument is Stopped (so after
`stop_motor` and `stop_all`); but for direction Forward or Reverse with
speed 0 the direction pin pattern stays driven while the status is Idle, so
P2 is not restored in that case (see the counterexample). -/
theorem set_channel_invariants (c : Tb6612.TB6612Controller) (ch : Chan)
    (sp : Int) (dir : Direction) (hi : c.is_init = true) :
    Tb6612.P1 (Tb6612.get_motor_status (Tb6612.set_motor_speed c ch sp dir).2.1 ch) ∧
    (dir = .stopped → Tb6612.P2 (Tb6612.set_motor_speed c ch sp dir).2.1 ch) ∧
    Tb6612.P1 (Tb6612.get_motor_status (Tb6612.stop_all c).1 ch) ∧
    Tb6612.P2 (Tb6612.stop_all c).1 ch := by
  refine ⟨?_, ?_, ?_, ?_⟩
  · rcases ch <;> rcases dir <;>
      by_cases hs : c.standby_active <;>
      simp [Tb6612.set_motor_speed, hi, hs, Tb6612.enable, Tb6612.set_motor_a,
        Tb6612.set_motor_b, Tb6612.get_motor_status, Tb6612.P1]
  · rintro rfl
    rcases ch <;>
      by_cases hs : c.standby_active <;>
      cases hpa : c.pwm_a <;> cases hpb : c.pwm_b <;>
      simp [Tb6612.set_motor_speed, hi, hs, Tb6612.enable, Tb6612.set_motor_a,
        Tb6612.set_motor_b, Tb6612.P2, Tb6612.dutyA, Tb6612.dutyB, hpa, hpb]
  · rcases ch <;>
      simp [Tb6612.stop_all, Tb6612.stop_all_motors, Tb6612.get_motor_status,
        Tb6612.P1]
  · rcases ch <;>
      cases hpa : c.pwm_a <;> cases hpb : c.pwm_b <;>
      simp [Tb6612.stop_all, Tb6612.stop_all_motors, Tb6612.P2, Tb6612.dutyA,
        Tb6612.dutyB, hpa, hpb]

/-- Witness for the amended C5: channel A of controller 0, speed 0,
direction Stopped. -/
theorem set_channel_invariants_witness :
    tbC0.is_init = true ∧
    (Tb6612.P1 (Tb6612.get_motor_status
        (Tb6612.set_motor_speed tbC0 .A 0 .stopped).2.1 .A) ∧
      ((.stopped : Direction) = .stopped →
        Tb6612.P2 (Tb6612.set_motor_speed tbC0 .A 0 .stopped).2.1 .A) ∧
      Tb6612.P1 (Tb6612.get_motor_status (Tb6612.stop_all tbC0).1 .A) ∧
      Tb6612.P2 (Tb6612.stop_all tbC0).1 .A) :=
  ⟨by decide, set_channel_invariants tbC0 .A 0 .stopped (by decide)⟩

/-- C10: a successful `start_pump` drives the channel with duty
`adjustedSpeed = clamp(int(speed_percent · calibration_factor), 30, 100)`:
the call succeeds, the `ChangeDutyCycle` command carrying exactly that value
appears in the call's trace, and the value lies within
`[min_duty_cycle, max_duty_cycle] = [30, 100]` whatever the calibration
factor is. -/
theorem start_pump_duty (m : Tb6612.PumpManager) (pump_id : Nat)
    (speed_percent : Int) (now : ℚ) (p : Tb6612.PumpConfig)
    (c : Tb6612.TB6612Controller)
    (hem : m.emergency_flag = false) (hp : Tb6612.getPump m pump_id = some p)
    (hc : Tb6612.getController m p.tb6612_controller = some c)
    (hi : c.is_init = true)
    (hpwm : (Tb6612.pwmOf c p.motor_channel).isSome = true) :
    (Tb6612.start_pump m pump_id speed_percent now).1 = true ∧
    HWEvent.setDuty (Tb6612.pwmPinOf c p.motor_channel)
        (Tb6612.adjustedSpeed speed_percent p.calibration_factor)
      ∈ (Tb6612.start_pump m pump_id speed_percent now).2.2 ∧
    Tb6612.PWM_CONFIG_min_duty_cycle ≤
      Tb6612.adjustedSpeed speed_percent p.calibration_factor ∧
    Tb6612.adjustedSpeed speed_percent p.calibration_factor ≤
      Tb6612.PWM_CONFIG_max_duty_cycle := by
  have h30 : Tb6612.PWM_CONFIG_min_duty_cycle ≤
      Tb6612.adjustedSpeed speed_percent p.calibration_factor :=
    le_max_left _ _
  have h100 : Tb6612.adjustedSpeed speed_percent p.calibration_factor ≤
      Tb6612.PWM_CONFIG_max_duty_cycle :=
    max_le (by decide) (min_le_left _ _)
  have hcl : Tb6612.clampSpeed (Tb6612.adjustedSpeed speed_percent p.calibration_factor)
      = Tb6612.adjustedSpeed speed_percent p.calibration_factor := by
    unfold Tb6612.clampSpeed
    simp only [Tb6612.PWM_CONFIG_min_duty_cycle] at h30
    simp only [Tb6612.PWM_CONFIG_max_duty_cycle] at h100
    have h1 : min 100 (Tb6612.adjustedSpeed speed_percent p.calibration_factor) =
        Tb6612.adjustedSpeed speed_percent p.calibration_factor := min_eq_right h100
    have h2 : max 0 (min 100 (Tb6612.adjustedSpeed speed_percent p.calibration_factor)) =
        Tb6612.adjustedSpeed speed_percent p.calibration_factor := by
      rw [h1]; exact max_eq_right (by omega)
    rw [h2, if_neg]
    simp only [Tb6612.PWM_CONFIG_min_duty_cycle, not_and, not_lt]
    omega
  refine ⟨?_, ?_, h30, h100⟩ <;>
  · rw [Tb6612.start_pump]
    simp only [hem, hp, hc, Bool.false_eq_true, if_false]
    rcases hch : p.motor_channel with _ | _ <;>
      rw [hch] at hpwm <;>
      simp only [Tb6612.pwmOf] at hpwm <;>
      by_cases hs : c.standby_active <;>
      simp [Tb6612.set_motor_speed, hi, hs, Tb6612.enable, Tb6612.set_motor_a,
        Tb6612.set_motor_b, Tb6612.pwmPinOf, hcl, Tb6612.markStarted, hpwm]

/-- Witness for C10: pump 1 (Gin, calibration 1.0) started at speed 100 on
the initialized fleet. -/
theorem start_pump_duty_witness :
    Tb6612.pumpManager0.emergency_flag = false ∧
    Tb6612.getPump Tb6612.pumpManager0 1 =
      some ⟨1, 0, .A, "Gin", 2.8, 1.0, 750⟩ ∧
    Tb6612.getController Tb6612.pumpManager0 0 = some tbC0 ∧
    tbC0.is_init = true ∧
    (Tb6612.pwmOf tbC0 .A).isSome = true ∧
    ((Tb6612.start_pump Tb6612.pumpManager0 1 100 0).1 = true ∧
      HWEvent.setDuty (Tb6612.pwmPinOf tbC0 .A) (Tb6612.adjustedSpeed 100 1.0)
        ∈ (Tb6612.start_pump Tb6612.pumpManager0 1 100 0).2.2 ∧
      Tb6612.PWM_CONFIG_min_duty_cycle ≤ Tb6612.adjustedSpeed 100 1.0 ∧
      Tb6612.adjustedSpeed 100 1.0 ≤ Tb6612.PWM_CONFIG_max_duty_cycle) :=
  ⟨by decide, by decide, by decide, by decide, by decide,
   start_pump_duty Tb6612.pumpManager0 1 100 0 ⟨1, 0, .A, "Gin", 2.8, 1.0, 750⟩
     tbC0 (by decide) (by decide) (by decide) (by decide) (by decide)⟩

namespace Tb6612

/-- Helper: `set_motor_speed` succeeds on an initialized controller and
keeps it initialized. -/
theorem set_motor_speed_ok (c : TB6612Controller) (ch : Chan) (sp : Int)
    (dir : Direction) (hi : c.is_init = true) :
    (set_motor_speed c ch sp dir).1 = true ∧
    (set_motor_speed c ch sp dir).2.1.is_init = true := by
  rcases ch <;> by_cases hs : c.standby_active <;>
    simp [set_motor_speed, hi, hs, enable, set_motor_a, set_motor_b]

/-- Helper: `markStarted` changes only `last_started`. -/
theorem markStarted_fields (c : TB6612Controller) (ch : Chan) (now : ℚ) :
    (markStarted c ch now).is_init = c.is_init ∧
    (get_motor_status (markStarted c ch now) ch).is_running =
      (get_motor_status c ch).is_running ∧
    (get_motor_status (markStarted c ch now) ch).volume_dispensed =
      (get_motor_status c ch).volume_dispensed := by
  rcases ch <;> simp [markStarted, get_motor_status]

/-- Helper: `markStopped` changes only `total_runtime` and `last_started`. -/
theorem markStopped_fields (c : TB6612Controller) (ch : Chan) (now : ℚ) :
    (markStopped c ch now).is_init = c.is_init ∧
    (get_motor_status (markStopped c ch now) ch).is_running =
      (get_motor_status c ch).is_running ∧
    (get_motor_status (markStopped c ch now) ch).volume_dispensed =
      (get_motor_status c ch).volume_dispensed ∧
    pwmOf (markStopped c ch now) ch = pwmOf c ch ∧
    dirLevels (markStopped c ch now) ch = dirLevels c ch := by
  rcases ch
  · cases h : c.motor_a_status.last_started <;>
      simp [markStopped, get_motor_status, pwmOf, dirLevels, h]
  · cases h : c.motor_b_status.last_started <;>
      simp [markStopped, get_motor_status, pwmOf, dirLevels, h]

/-- Helper: state of a channel right after `stop_motor`: stopped status,
direction pins low, duty 0, volume counter untouched. -/
theorem stop_motor_state (c : TB6612Controller) (ch : Chan) (hi : c.is_init = true) :
    (stop_motor c ch).1 = true ∧
    (stop_motor c ch).2.1.is_init = true ∧
    (get_motor_status (stop_motor c ch).2.1 ch).is_running = false ∧
    (get_motor_status (stop_motor c ch).2.1 ch).volume_dispensed =
      (get_motor_status c ch).volume_dispensed ∧
    (pwmOf (stop_motor c ch).2.1 ch).getD 0 = 0 ∧
    dirLevels (stop_motor c ch).2.1 ch = (.low, .low) := by
  rcases ch <;> by_cases hs : c.standby_active <;>
    [cases hpw : c.pwm_a; cases hpw : c.pwm_a;
     cases hpw : c.pwm_b; cases hpw : c.pwm_b] <;>
    simp [stop_motor, set_motor_speed, clampSpeed, hi, hs, enable,
      set_motor_a, set_motor_b, get_motor_status, pwmOf, dirLevels, hpw,
      PWM_CONFIG_min_duty_cycle]

/-- Helper: `getPump` ignores the controller table. -/
theorem getPump_setControllerAt (m : PumpManager) (i : Nat)
    (c : TB6612Controller) (pump_id : Nat) :
    getPump (setControllerAt m i c) pump_id = getPump m pump_id := rfl

/-- Helper: reading back the controller just stored. -/
theorem getController_set_self (m : PumpManager) (i : Nat)
    (c0 c : TB6612Controller) (hc : getController m i = some c0) :
    getController (setControllerAt m i c) i = some c := by
  obtain ⟨hlt, -⟩ := List.get?_eq_some.mp hc
  exact List.get?_set_eq_of_lt c hlt

/-- Helper: a successful `start_pump` returns `True` and stores the driven
controller at the pump's index. -/
theorem start_pump_res (m : PumpManager) (pump_id : Nat) (sp : Int) (now : ℚ)
    (p : PumpConfig) (c : TB6612Controller)
    (hem : m.emergency_flag = false) (hp : getPump m pump_id = some p)
    (hc : getController m p.tb6612_controller = some c) (hi : c.is_init = true) :
    (start_pump m pump_id sp now).1 = true ∧
    (start_pump m pump_id sp now).2.1 =
      setControllerAt m p.tb6612_controller
        (markStarted (set_motor_speed c p.motor_channel
          (adjustedSpeed sp p.calibration_factor) .forward).2.1
          p.motor_channel now) := by
  have h1 := set_motor_speed_ok c p.motor_channel
    (adjustedSpeed sp p.calibration_factor) .forward hi
  rw [start_pump]
  simp only [hem, Bool.false_eq_true, if_false, hp, hc]
  simp [h1.1]

/-- Helper: a successful `stop_pump` returns `True` and stores the stopped
controller at the pump's index. -/
theorem stop_pump_res (m : PumpManager) (pump_id : Nat) (now : ℚ)
    (p : PumpConfig) (c : TB6612Controller)
    (hp : getPump m pump_id = some p)
    (hc : getController m p.tb6612_controller = some c) (hi : c.is_init = true) :
    (stop_pump m pump_id now).1 = true ∧
    (stop_pump m pump_id now).2.1 =
      setControllerAt m p.tb6612_controller
        (markStopped (stop_motor c p.motor_channel).2.1 p.motor_channel now) := by
  have h1 := set_motor_speed_ok c p.motor_channel 0 .stopped hi
  rw [stop_pump]
  simp only [hp, hc]
  simp [stop_motor] at h1 ⊢
  simp [h1.1]

end Tb6612

/-- C6 counterexample: `pour_volume` with `volume_ml = 0` returns `True`
(reported success) with no hardware activity and no state change — a
non-positive volume is a silent no-op, not a rejected failure. -/
theorem pour_volume_nonpositive_counterexample :
    (Tb6612.pour_volume Tb6612.pumpManager0 1 0 100 0 none).1 = true ∧
    (Tb6612.pour_volume Tb6612.pumpManager0 1 0 100 0 none).2.1 =
      Tb6612.pumpManager0 ∧
    (Tb6612.pour_volume Tb6612.pumpManager0 1 0 100 0 none).2.2 = [] := by
  decide

/-- C6 amended: `pour_volume` treats `volume_ml ≤ 0` as a success `True`
no-op (no rejection); it rejects with `False` whenever the computed duration
`volume_ml / effective_flow_rate` exceeds `max_pour_time` = 60 s; and at the
boundary volume `60 s × effective_flow_rate` it proceeds and succeeds. -/
theorem pour_volume_preconditions (m : Tb6612.PumpManager) (pump_id : Nat)
    (p : Tb6612.PumpConfig) (c : Tb6612.TB6612Controller)
    (volume_ml : ℚ) (speed_percent : Int) (now : ℚ)
    (hp : Tb6612.getPump m pump_id = some p) :
    (volume_ml ≤ 0 →
      Tb6612.pour_volume m pump_id volume_ml speed_percent now none =
        (true, m, [])) ∧
    (0 < volume_ml → 60 < volume_ml / p.effective_flow_rate →
      Tb6612.pour_volume m pump_id volume_ml speed_percent now none =
        (false, m, [])) ∧
    (0 < p.effective_flow_rate → m.emergency_flag = false →
      Tb6612.getController m p.tb6612_controller = some c → c.is_init = true →
      (Tb6612.pour_volume m pump_id (60 * p.effective_flow_rate)
        speed_percent now none).1 = true) := by
  refine ⟨?_, ?_, ?_⟩
  · intro hv
    rw [Tb6612.pour_volume]
    simp only [hp]
    rw [if_pos hv]
  · intro hv hd
    rw [Tb6612.pour_volume]
    simp only [hp]
    rw [if_neg (not_le.mpr hv),
      if_pos (show Tb6612.TIMING_CONFIG_max_pour_time <
        volume_ml / p.effective_flow_rate from hd)]
  · intro hf hem hc hi
    have hvpos : ¬ (60 * p.effective_flow_rate ≤ 0) :=
      not_le.mpr (mul_pos (by norm_num) hf)
    have hpt : 60 * p.effective_flow_rate / p.effective_flow_rate = 60 :=
      mul_div_cancel_right₀ _ (ne_of_gt hf)
    obtain ⟨hok1, hm1⟩ := Tb6612.start_pump_res m pump_id speed_percent now p c
      hem hp hc hi
    have hi2 : (Tb6612.markStarted (Tb6612.set_motor_speed c p.motor_channel
        (Tb6612.adjustedSpeed speed_percent p.calibration_factor) .forward).2.1
        p.motor_channel now).is_init = true := by
      rw [(Tb6612.markStarted_fields _ _ _).1]
      exact (Tb6612.set_motor_speed_ok c p.motor_channel
        (Tb6612.adjustedSpeed speed_percent p.calibration_factor) .forward hi).2
    have hp2 : Tb6612.getPump (Tb6612.start_pump m pump_id speed_percent now).2.1
        pump_id = some p := by
      rw [hm1]; exact hp
    have hc2 : Tb6612.getController
        (Tb6612.start_pump m pump_id speed_percent now).2.1
        p.tb6612_controller = some (Tb6612.markStarted
          (Tb6612.set_motor_speed c p.motor_channel
            (Tb6612.adjustedSpeed speed_percent p.calibration_factor) .forward).2.1
          p.motor_channel now) := by
      rw [hm1]
      exact Tb6612.getController_set_self m _ c _ hc
    obtain ⟨hok2, -⟩ := Tb6612.stop_pump_res
      (Tb6612.start_pump m pump_id speed_percent now).2.1 pump_id
      (now + 60) p _ hp2 hc2 hi2
    rw [Tb6612.pour_volume]
    simp only [hp]
    rw [if_neg hvpos]
    simp only [hpt]
    rw [if_neg (by norm_num [Tb6612.TIMING_CONFIG_max_pour_time])]
    simp only [hok1, Bool.not_true, Bool.false_eq_true, if_false]
    simp [hok2]

/-- Witness for the amended C6 on pump 1 of the initialized fleet, with
volume −5 ml for the non-positive branch and the exact boundary volume
`60 × 2.8` ml for the boundary branch. -/
theorem pour_volume_preconditions_witness :
    Tb6612.getPump Tb6612.pumpManager0 1 =
      some ⟨1, 0, .A, "Gin", 2.8, 1.0, 750⟩ ∧
    ((((-5 : ℚ)) ≤ 0 →
        Tb6612.pour_volume Tb6612.pumpManager0 1 (-5) 100 0 none =
          (true, Tb6612.pumpManager0, [])) ∧
      (0 < ((-5 : ℚ)) → 60 < ((-5 : ℚ)) /
          (⟨1, 0, .A, "Gin", 2.8, 1.0, 750⟩ :
            Tb6612.PumpConfig).effective_flow_rate →
        Tb6612.pour_volume Tb6612.pumpManager0 1 (-5) 100 0 none =
          (false, Tb6612.pumpManager0, [])) ∧
      (0 < (⟨1, 0, .A, "Gin", 2.8, 1.0, 750⟩ :
          Tb6612.PumpConfig).effective_flow_rate →
        Tb6612.pumpManager0.emergency_flag = false →
        Tb6612.getController Tb6612.pumpManager0 0 = some tbC0 →
        tbC0.is_init = true →
        (Tb6612.pour_volume Tb6612.pumpManager0 1
          (60 * (⟨1, 0, .A, "Gin", 2.8, 1.0, 750⟩ :
            Tb6612.PumpConfig).effective_flow_rate) 100 0 none).1 = true)) :=
  ⟨by decide,
   pour_volume_preconditions Tb6612.pumpManager0 1
     ⟨1, 0, .A, "Gin", 2.8, 1.0, 750⟩ tbC0 (-5) 100 0 (by decide)⟩

namespace Tb6612

/-- Helper: `set_motor_speed` never touches the volume counter. -/
theorem set_motor_speed_volume (c : TB6612Controller) (ch : Chan) (sp : Int)
    (dir : Direction) :
    (get_motor_status (set_motor_speed c ch sp dir).2.1 ch).volume_dispensed =
      (get_motor_status c ch).volume_dispensed := by
  by_cases hi : c.is_init <;> rcases ch <;> by_cases hs : c.standby_active <;>
    simp [set_motor_speed, enable, set_motor_a, set_motor_b, get_motor_status,
      hi, hs]

/-- Helper: `get_pump_status` through the two lookups. -/
theorem get_pump_status_eq (m : PumpManager) (pump_id : Nat) (p : PumpConfig)
    (c : TB6612Controller) (hp : getPump m pump_id = some p)
    (hc : getController m p.tb6612_controller = some c) :
    get_pump_status m pump_id = some (get_motor_status c p.motor_channel) := by
  simp only [get_pump_status, hp, hc]

end Tb6612

/-- C2 counterexample: pump 1 (2.8 ml/s) asked for 50 ml and interrupted
10 s in.  The elapsed fraction of the requested volume is 28 ml, but the
code credits nothing: `volume_dispensed` stays 0, and the call returns the
plain failure `False` — there is no `Aborted{dispensed_ml}` value at all. -/
theorem pour_interrupt_counterexample :
    (Tb6612.pour_volume Tb6612.pumpManager0 1 50 100 0 (some 10)).1 = false ∧
    (Tb6612.get_pump_status
        (Tb6612.pour_volume Tb6612.pumpManager0 1 50 100 0 (some 10)).2.1 1).map
      (fun s => s.volume_dispensed) = some 0 ∧
    (50 : ℚ) * (10 / (50 / (2.8 * 1.0))) = 28 ∧
    ¬ ((0 : ℚ) = 28) := by
  decide

/-- C2 amended: when an in-flight `pour_volume` is interrupted during its
wait (cancellation or emergency), the channel is stopped immediately — the
pump is left not running with both direction pins low and duty 0, and
`Pump.stop_immediately` of the Kivy layer likewise forces `Pumping → Idle`
with the channel stopped — but `volume_dispensed` is left unchanged (no
elapsed-fraction credit) and the call returns the plain failure `False`
carrying no partial volume. -/
theorem pour_interrupt_amended (m : Tb6612.PumpManager) (pump_id : Nat)
    (p : Tb6612.PumpConfig) (c : Tb6612.TB6612Controller)
    (volume_ml t : ℚ) (speed_percent : Int) (now : ℚ) (q : Hw.Pump)
    (hp : Tb6612.getPump m pump_id = some p)
    (hc : Tb6612.getController m p.tb6612_controller = some c)
    (hem : m.emergency_flag = false) (hi : c.is_init = true)
    (hv : 0 < volume_ml)
    (hd : ¬ (Tb6612.TIMING_CONFIG_max_pour_time <
      volume_ml / p.effective_flow_rate)) :
    (Tb6612.pour_volume m pump_id volume_ml speed_percent now (some t)).1 =
      false ∧
    (Tb6612.get_pump_status
        (Tb6612.pour_volume m pump_id volume_ml speed_percent now (some t)).2.1
        pump_id).map (fun s => s.volume_dispensed) =
      (Tb6612.get_pump_status m pump_id).map (fun s => s.volume_dispensed) ∧
    (Tb6612.get_pump_status
        (Tb6612.pour_volume m pump_id volume_ml speed_percent now (some t)).2.1
        pump_id).map (fun s => s.is_running) = some false ∧
    (∃ c3, Tb6612.getController
        (Tb6612.pour_volume m pump_id volume_ml speed_percent now (some t)).2.1
        p.tb6612_controller = some c3 ∧
      Tb6612.dirLevels c3 p.motor_channel = (.low, .low) ∧
      (Tb6612.pwmOf c3 p.motor_channel).getD 0 = 0) ∧
    ((Hw.stop_immediately q).1.status = Hw.PumpStatus.IDLE ∧
      (Hw.stop_immediately q).1.controller.is_running = false ∧
      (Hw.stop_immediately q).1.controller.in1_level = .low ∧
      (Hw.stop_immediately q).1.controller.in2_level = .low) := by
  obtain ⟨hok1, hm1⟩ := Tb6612.start_pump_res m pump_id speed_percent now p c
    hem hp hc hi
  have hi2 : (Tb6612.markStarted (Tb6612.set_motor_speed c p.motor_channel
      (Tb6612.adjustedSpeed speed_percent p.calibration_factor) .forward).2.1
      p.motor_channel now).is_init = true := by
    rw [(Tb6612.markStarted_fields _ _ _).1]
    exact (Tb6612.set_motor_speed_ok c p.motor_channel
      (Tb6612.adjustedSpeed speed_percent p.calibration_factor) .forward hi).2
  have hp2 : Tb6612.getPump (Tb6612.start_pump m pump_id speed_percent now).2.1
      pump_id = some p := by
    rw [hm1]; exact hp
  have hc2 : Tb6612.getController
      (Tb6612.start_pump m pump_id speed_percent now).2.1
      p.tb6612_controller = some (Tb6612.markStarted
        (Tb6612.set_motor_speed c p.motor_channel
          (Tb6612.adjustedSpeed speed_percent p.calibration_factor) .forward).2.1
        p.motor_channel now) := by
    rw [hm1]
    exact Tb6612.getController_set_self m _ c _ hc
  obtain ⟨hok2, hm2⟩ := Tb6612.stop_pump_res
    (Tb6612.start_pump m pump_id speed_percent now).2.1 pump_id (now + t)
    p _ hp2 hc2 hi2
  have hres : Tb6612.pour_volume m pump_id volume_ml speed_percent now (some t) =
      (false,
       (Tb6612.stop_pump (Tb6612.start_pump m pump_id speed_percent now).2.1
         pump_id (now + t)).2.1,
       (Tb6612.start_pump m pump_id speed_percent now).2.2 ++
         (Tb6612.stop_pump (Tb6612.start_pump m pump_id speed_percent now).2.1
           pump_id (now + t)).2.2) := by
    rw [Tb6612.pour_volume]
    simp only [hp]
    rw [if_neg (not_le.mpr hv), if_neg hd]
    simp [hok1]
  have hp3 : Tb6612.getPump (Tb6612.stop_pump
      (Tb6612.start_pump m pump_id speed_percent now).2.1 pump_id (now + t)).2.1
      pump_id = some p := by
    rw [hm2, Tb6612.getPump_setControllerAt, hm1, Tb6612.getPump_setControllerAt]
    exact hp
  have hc3 : Tb6612.getController (Tb6612.stop_pump
      (Tb6612.start_pump m pump_id speed_percent now).2.1 pump_id (now + t)).2.1
      p.tb6612_controller = some (Tb6612.markStopped
        (Tb6612.stop_motor (Tb6612.markStarted
          (Tb6612.set_motor_speed c p.motor_channel
            (Tb6612.adjustedSpeed speed_percent p.calibration_factor) .forward).2.1
          p.motor_channel now) p.motor_channel).2.1 p.motor_channel (now + t)) := by
    rw [hm2]
    exact Tb6612.getController_set_self _ _ _ _ hc2
  obtain ⟨-, -, hrun, hvol, hduty, hpins⟩ := Tb6612.stop_motor_state
    (Tb6612.markStarted (Tb6612.set_motor_speed c p.motor_channel
      (Tb6612.adjustedSpeed speed_percent p.calibration_factor) .forward).2.1
      p.motor_channel now) p.motor_channel hi2
  obtain ⟨-, hms_run, hms_vol, hms_pwm, hms_dir⟩ := Tb6612.markStopped_fields
    (Tb6612.stop_motor (Tb6612.markStarted
      (Tb6612.set_motor_speed c p.motor_channel
        (Tb6612.adjustedSpeed speed_percent p.calibration_factor) .forward).2.1
      p.motor_channel now) p.motor_channel).2.1 p.motor_channel (now + t)
  have hgs : Tb6612.get_pump_status (Tb6612.stop_pump
      (Tb6612.start_pump m pump_id speed_percent now).2.1 pump_id (now + t)).2.1
      pump_id = some (Tb6612.get_motor_status (Tb6612.markStopped
        (Tb6612.stop_motor (Tb6612.markStarted
          (Tb6612.set_motor_speed c p.motor_channel
            (Tb6612.adjustedSpeed speed_percent p.calibration_factor) .forward).2.1
          p.motor_channel now) p.motor_channel).2.1 p.motor_channel (now + t))
        p.motor_channel) :=
    Tb6612.get_pump_status_eq _ _ _ _ hp3 hc3
  have hgs0 : Tb6612.get_pump_status m pump_id =
      some (Tb6612.get_motor_status c p.motor_channel) :=
    Tb6612.get_pump_status_eq _ _ _ _ hp hc
  refine ⟨by rw [hres], ?_, ?_, ?_, ?_⟩
  · rw [hres]
    show (Tb6612.get_pump_status (Tb6612.stop_pump _ _ _).2.1 pump_id).map _ = _
    rw [hgs, hgs0]
    simp only [Option.map_some']
    rw [hms_vol, hvol, (Tb6612.markStarted_fields _ _ _).2.2,
      Tb6612.set_motor_speed_volume]
  · rw [hres]
    show (Tb6612.get_pump_status (Tb6612.stop_pump _ _ _).2.1 pump_id).map _ = _
    rw [hgs]
    simp only [Option.map_some']
    rw [hms_run, hrun]
  · exact ⟨_, by rw [hres]; exact hc3, by rw [hms_dir]; exact hpins,
      by rw [hms_pwm]; exact hduty⟩
  · rcases hq : q.controller.pwm with _ | pw <;>
      simp [Hw.stop_immediately, Hw.stop, hq]

/-- Witness for the amended C2: pump 1, 50 ml at speed 100 from time 0,
interrupted 10 s in, with the mid-dispense Kivy Gin pump. -/
theorem pour_interrupt_amended_witness :
    Tb6612.getPump Tb6612.pumpManager0 1 =
      some ⟨1, 0, .A, "Gin", 2.8, 1.0, 750⟩ ∧
    Tb6612.getController Tb6612.pumpManager0 0 = some tbC0 ∧
    Tb6612.pumpManager0.emergency_flag = false ∧
    tbC0.is_init = true ∧
    (0 : ℚ) < 50 ∧
    ¬ (Tb6612.TIMING_CONFIG_max_pour_time < (50 : ℚ) /
      (⟨1, 0, .A, "Gin", 2.8, 1.0, 750⟩ :
        Tb6612.PumpConfig).effective_flow_rate) ∧
    ((Tb6612.pour_volume Tb6612.pumpManager0 1 50 100 0 (some 10)).1 = false ∧
      (Tb6612.get_pump_status
          (Tb6612.pour_volume Tb6612.pumpManager0 1 50 100 0 (some 10)).2.1 1).map
        (fun s => s.volume_dispensed) =
        (Tb6612.get_pump_status Tb6612.pumpManager0 1).map
          (fun s => s.volume_dispensed) ∧
      (Tb6612.get_pump_status
          (Tb6612.pour_volume Tb6612.pumpManager0 1 50 100 0 (some 10)).2.1 1).map
        (fun s => s.is_running) = some false ∧
      (∃ c3, Tb6612.getController
          (Tb6612.pour_volume Tb6612.pumpManager0 1 50 100 0 (some 10)).2.1 0 =
          some c3 ∧
        Tb6612.dirLevels c3 .A = (.low, .low) ∧
        (Tb6612.pwmOf c3 .A).getD 0 = 0) ∧
      ((Hw.stop_immediately hwPumpingGin).1.status = Hw.PumpStatus.IDLE ∧
        (Hw.stop_immediately hwPumpingGin).1.controller.is_running = false ∧
        (Hw.stop_immediately hwPumpingGin).1.controller.in1_level = .low ∧
        (Hw.stop_immediately hwPumpingGin).1.controller.in2_level = .low)) :=
  ⟨by decide, by decide, by decide, by decide, by norm_num, by decide,
   pour_interrupt_amended Tb6612.pumpManager0 1
     ⟨1, 0, .A, "Gin", 2.8, 1.0, 750⟩ tbC0 50 10 100 0 hwPumpingGin
     (by decide) (by decide) (by decide) (by decide) (by norm_num) (by decide)⟩

namespace Cm

/-- Helper: membership in a stable insertion. -/
theorem mem_insertStable {α : Type} (key : α → Nat) (x a : α) (l : List α) :
    a ∈ insertStable key x l ↔ a = x ∨ a ∈ l := by
  induction l with
  | nil => simp [insertStable]
  | cons y ys ih =>
    by_cases h : key y < key x <;> simp [insertStable, h, ih] <;> tauto

/-- Helper: membership is preserved by the stable sort. -/
theorem mem_sortStable {α : Type} (key : α → Nat) (l : List α) (a : α) :
    a ∈ sortStable key l ↔ a ∈ l := by
  induction l with
  | nil => simp [sortStable]
  | cons x xs ih => simp [sortStable, mem_insertStable, ih]

/-- Helper: projecting a stable insertion onto a key class containing the
inserted element puts that element first. -/
theorem filter_insertStable_pos {α : Type} (key : α → Nat) (p : α → Bool)
    (x : α) (l : List α) (hp : ∀ y, p y = true → key y = key x)
    (hx : p x = true) :
    (insertStable key x l).filter p = x :: l.filter p := by
  induction l with
  | nil => simp [insertStable, hx]
  | cons y ys ih =>
    by_cases h : key y < key x
    · have hpy : p y = false := by
        cases hpy : p y
        · rfl
        · exact absurd (hp y hpy) (Nat.ne_of_lt h)
      rw [insertStable, if_pos h, List.filter_cons, if_neg (by simp [hpy]), ih,
        List.filter_cons, if_neg (by simp [hpy])]
    · rw [insertStable, if_neg h, List.filter_cons, if_pos (by simp [hx])]

/-- Helper: projecting a stable insertion onto a class avoiding the
inserted element ignores it. -/
theorem filter_insertStable_neg {α : Type} (key : α → Nat) (p : α → Bool)
    (x : α) (l : List α) (hx : p x = false) :
    (insertStable key x l).filter p = l.filter p := by
  induction l with
  | nil => simp [insertStable, hx]
  | cons y ys ih =>
    by_cases h : key y < key x
    · rw [insertStable, if_pos h, List.filter_cons, List.filter_cons, ih]
    · rw [insertStable, if_neg h, List.filter_cons, if_neg (by simp [hx])]

/-- Helper (stability): the stable sort preserves the projection onto every
key class. -/
theorem filter_sortStable {α : Type} (key : α → Nat) (p : α → Bool) (k : Nat)
    (hconst : ∀ y, p y = true → key y = k) (l : List α) :
    (sortStable key l).filter p = l.filter p := by
  induction l with
  | nil => rfl
  | cons x xs ih =>
    cases hx : p x
    · rw [sortStable, filter_insertStable_neg key p x _ hx, ih,
        List.filter_cons, if_neg (by simp [hx])]
    · have hkey : ∀ y, p y = true → key y = key x := by
        intro y hy
        rw [hconst y hy, hconst x hx]
      rw [sortStable, filter_insertStable_pos key p x _ hkey hx, ih,
        List.filter_cons, if_pos (by simp [hx])]

/-- Helper: inserting into a key-sorted list keeps it key-sorted. -/
theorem sorted_insertStable {α : Type} (key : α → Nat) (x : α) (l : List α)
    (h : l.Pairwise (fun a b => key a ≤ key b)) :
    (insertStable key x l).Pairwise (fun a b => key a ≤ key b) := by
  induction l with
  | nil => simp [insertStable]
  | cons y ys ih =>
    rcases List.pairwise_cons.mp h with ⟨hy, hys⟩
    by_cases hk : key y < key x
    · rw [insertStable, if_pos hk]
      refine List.pairwise_cons.mpr ⟨?_, ih hys⟩
      intro b hb
      rcases (mem_insertStable key x b ys).mp hb with rfl | hbm
      · exact le_of_lt hk
      · exact hy b hbm
    · rw [insertStable, if_neg hk]
      refine List.pairwise_cons.mpr ⟨?_, h⟩
      intro b hb
      rcases List.mem_cons.mp hb with rfl | hbm
      · exact le_of_not_lt hk
      · exact le_trans (le_of_not_lt hk) (hy b hbm)

/-- Helper: the stable sort is key-sorted. -/
theorem sorted_sortStable {α : Type} (key : α → Nat) (l : List α) :
    (sortStable key l).Pairwise (fun a b => key a ≤ key b) := by
  induction l with
  | nil => exact List.Pairwise.nil
  | cons x xs ih => exact sorted_insertStable key x _ ih

end Cm

/-- C9: `prepare_cocktail` dispenses the non-garnish pours in the stable
category order realized by `_get_pour_order`
(spirits 1 < syrups 2 < juices 3 < mixers 4 < garnish 5): the executed
sequence is sorted by pour rank, garnish pours are never dispensed, and for
every non-garnish category the executed subsequence equals the recipe's
input subsequence of that category (stable sort). -/
theorem pour_order_spec (ings : List Cm.Ingredient)
    (havail : ∀ i ∈ ings, i.category ≠ "garnish" →
      i.is_available = true ∧ i.pump_id.isSome = true) :
    (Cm.get_pour_order "spirits" = 1 ∧ Cm.get_pour_order "syrups" = 2 ∧
      Cm.get_pour_order "juices" = 3 ∧ Cm.get_pour_order "mixers" = 4 ∧
      Cm.get_pour_order "garnish" = 5) ∧
    (Cm.dispensed ings).Pairwise
      (fun a b => Cm.get_pour_order a.category ≤ Cm.get_pour_order b.category) ∧
    (∀ i ∈ Cm.dispensed ings, i.category ≠ "garnish") ∧
    (∀ c : String, c ≠ "garnish" →
      (Cm.dispensed ings).filter (fun i => i.category == c) =
        ings.filter (fun i => i.category == c)) := by
  refine ⟨by decide, ?_, ?_, ?_⟩
  · exact ((Cm.sorted_sortStable (fun i => Cm.get_pour_order i.category)
      ings).sublist (List.filter_sublist _))
  · intro i hi
    have hpred := (List.mem_filter.mp hi).2
    simp only [Bool.and_eq_true, Bool.not_eq_true'] at hpred
    exact fun hcat => by simp [hcat] at hpred
  · intro c hcne
    rw [Cm.dispensed, List.filter_filter]
    have hcongr : ∀ i ∈ Cm.sortStable (fun i => Cm.get_pour_order i.category) ings,
        ((i.category == c) && (!(i.category == "garnish") && i.is_available &&
          i.pump_id.isSome)) = (i.category == c) := by
      intro i hi
      cases hc : (i.category == c)
      · simp
      · have hcat : i.category = c := by
          simpa using hc
        have hng : i.category ≠ "garnish" := by
          rw [hcat]; exact hcne
        obtain ⟨ha, hps⟩ := havail i
          ((Cm.mem_sortStable _ ings i).mp hi) hng
        simp [hng, ha, hps]
    rw [List.filter_congr hcongr]
    exact Cm.filter_sortStable (fun i => Cm.get_pour_order i.category)
      (fun i => i.category == c) (Cm.get_pour_order c)
      (fun y hy => by
        have hyc : y.category = c := by simpa using hy
        show Cm.get_pour_order y.category = Cm.get_pour_order c
        rw [hyc]) ings

/-- Witness for C9 on scenario S2's recipe `[Cola (mixers), Rum (spirits)]`:
Rum is dispensed first, then Cola. -/
theorem pour_order_spec_witness :
    Cm.dispensed [colaPour, rumPour] = [rumPour, colaPour] ∧
    (∀ i ∈ [colaPour, rumPour], i.category ≠ "garnish" →
      i.is_available = true ∧ i.pump_id.isSome = true) ∧
    ((Cm.get_pour_order "spirits" = 1 ∧ Cm.get_pour_order "syrups" = 2 ∧
        Cm.get_pour_order "juices" = 3 ∧ Cm.get_pour_order "mixers" = 4 ∧
        Cm.get_pour_order "garnish" = 5) ∧
      (Cm.dispensed [colaPour, rumPour]).Pairwise
        (fun a b => Cm.get_pour_order a.category ≤ Cm.get_pour_order b.category) ∧
      (∀ i ∈ Cm.dispensed [colaPour, rumPour], i.category ≠ "garnish") ∧
      (∀ c : String, c ≠ "garnish" →
        (Cm.dispensed [colaPour, rumPour]).filter (fun i => i.category == c) =
          [colaPour, rumPour].filter (fun i => i.category == c))) :=
  ⟨by decide, by decide, pour_order_spec [colaPour, rumPour] (by decide)⟩
